import Mathlib

/-!
A shallow embedding of the technical-indicator engine of
`src/frontend/src/utils/technicalIndicators.ts`, together with proofs about it.

JavaScript numbers are modelled exactly (rationals extended with `NaN` and the
two infinities); the arithmetic on them follows the IEEE rules the source relies
on (`x / 0`, comparisons with `NaN`, arithmetic on `undefined` yielding `NaN`).
Primitives imported by the source from the external `technicalindicators`
package (`SMA`, `EMA`, `ADX`, `OBV`, `VWAP`, `ATR`, `CCI`, `Stochastic`, `ROC`,
`MFI`) are not part of the repository; they are modelled from the spec
(sections 4.1 and 4.2) and marked as such.
-/

namespace CryptoBot

/-- A JavaScript number: an exact rational, an infinity, or `NaN`. -/
inductive JSNum where
  | num (q : ℚ)
  | posInf
  | negInf
  | nan
deriving DecidableEq, Repr

/-- JS unary negation. -/
def jneg : JSNum → JSNum
  | .num q => .num (-q)
  | .posInf => .negInf
  | .negInf => .posInf
  | .nan => .nan

/-- JS addition (`NaN` absorbing, `∞ + -∞ = NaN`). -/
def jadd : JSNum → JSNum → JSNum
  | .nan, _ => .nan
  | _, .nan => .nan
  | .num a, .num b => .num (a + b)
  | .num _, .posInf => .posInf
  | .num _, .negInf => .negInf
  | .posInf, .num _ => .posInf
  | .negInf, .num _ => .negInf
  | .posInf, .posInf => .posInf
  | .negInf, .negInf => .negInf
  | .posInf, .negInf => .nan
  | .negInf, .posInf => .nan

/-- JS subtraction. -/
def jsub (a b : JSNum) : JSNum := jadd a (jneg b)

/-- JS multiplication (`0 * ∞ = NaN`). -/
def jmul : JSNum → JSNum → JSNum
  | .nan, _ => .nan
  | _, .nan => .nan
  | .num a, .num b => .num (a * b)
  | .num a, .posInf => if 0 < a then .posInf else if a < 0 then .negInf else .nan
  | .num a, .negInf => if 0 < a then .negInf else if a < 0 then .posInf else .nan
  | .posInf, .num b => if 0 < b then .posInf else if b < 0 then .negInf else .nan
  | .negInf, .num b => if 0 < b then .negInf else if b < 0 then .posInf else .nan
  | .posInf, .posInf => .posInf
  | .negInf, .negInf => .posInf
  | .posInf, .negInf => .negInf
  | .negInf, .posInf => .negInf

/-- JS division (`x / 0` is a signed infinity for `x ≠ 0`, `0 / 0 = NaN`). -/
def jdiv : JSNum → JSNum → JSNum
  | .nan, _ => .nan
  | _, .nan => .nan
  | .num a, .num b =>
      if b = 0 then (if 0 < a then .posInf else if a < 0 then .negInf else .nan)
      else .num (a / b)
  | .num _, .posInf => .num 0
  | .num _, .negInf => .num 0
  | .posInf, .num b => if 0 ≤ b then .posInf else .negInf
  | .negInf, .num b => if 0 ≤ b then .negInf else .posInf
  | .posInf, .posInf => .nan
  | .posInf, .negInf => .nan
  | .negInf, .posInf => .nan
  | .negInf, .negInf => .nan

/-- JS absolute value. -/
def jabs : JSNum → JSNum
  | .num q => .num |q|
  | .posInf => .posInf
  | .negInf => .posInf
  | .nan => .nan

/-- JS strict `<` comparison; any comparison involving `NaN` is `false`. -/
def jlt : JSNum → JSNum → Bool
  | .num a, .num b => decide (a < b)
  | .num _, .posInf => true
  | .negInf, .num _ => true
  | .negInf, .posInf => true
  | _, _ => false

/-- Indexing a JS array of numbers: an out-of-range read is `undefined`, which
behaves as `NaN` in the arithmetic and comparisons the source performs on it. -/
def jidx (l : List JSNum) (i : ℕ) : JSNum := (l.get? i).getD .nan

/-- An input price bar (the `ChartData` interface): optional fields stay optional. -/
structure ChartData where
  timestamp : ℚ
  price : ℚ
  volume : Option ℚ := none
  high : Option ℚ := none
  low : Option ℚ := none
deriving DecidableEq, Repr

/-- Values-plus-signals result shape shared by most indicator functions. -/
structure IndicatorResult where
  values : List JSNum
  signals : List String
deriving DecidableEq, Repr

/-- Modelled from the spec: `SMA.calculate` of the external `technicalindicators`
package — for each index from `period - 1` on, the arithmetic mean of the
trailing `period` values (spec section 4.1). -/
def smaCalc (period : ℕ) (values : List ℚ) : List ℚ :=
  if period = 0 then []
  else (List.range (values.length + 1 - period)).map
    (fun i => ((values.drop i).take period).sum / (period : ℚ))

/-- Modelled from the spec: `EMA.calculate` of the external `technicalindicators`
package — seeded from the SMA of the first `period` values, then
`ema[i] = value[i]*k + ema[i-1]*(1-k)` with `k = 2/(period+1)` (spec section 4.1). -/
def emaCalc (period : ℕ) (values : List JSNum) : List JSNum :=
  if period = 0 then []
  else if values.length < period then []
  else
    let k : ℚ := 2 / ((period : ℚ) + 1)
    let seed := jdiv ((values.take period).foldl jadd (.num 0)) (.num (period : ℚ))
    (values.drop period).scanl
      (fun prev v => jadd (jmul v (.num k)) (jmul prev (.num (1 - k)))) seed

/-- The close-price moves of the trailing RSI window ending just before bar `i`
(the inner `j` loop of `calculateRSI`). -/
def rsiChanges (prices : List ℚ) (period i : ℕ) : List ℚ :=
  (List.range period).map
    (fun k => prices.getD (i - period + k + 1) 0 - prices.getD (i - period + k) 0)

/-- The RSI arithmetic of the source given the summed gains and losses of a
window: `rs = avgGain / avgLoss`, `RSI = 100 - 100/(1+rs)`, with JS division. -/
def rsiFromSums (g l : ℚ) (period : ℕ) : JSNum :=
  let avgGain := jdiv (.num g) (.num (period : ℚ))
  let avgLoss := jdiv (.num l) (.num (period : ℚ))
  let rs := jdiv avgGain avgLoss
  jsub (.num 100) (jdiv (.num 100) (jadd (.num 1) rs))

/-- One iteration of the outer `i` loop of `calculateRSI`. -/
def rsiValueAt (prices : List ℚ) (period i : ℕ) : JSNum :=
  let changes := rsiChanges prices period i
  let gains := changes.filter (fun c => 0 < c)
  let losses := (changes.filter (fun c => ¬ 0 < c)).map (fun c => -c)
  rsiFromSums gains.sum losses.sum period

/-- `calculateRSI` of the source: a trailing-window gain/loss average per bar
from index `period` on, with overbought/oversold/neutral signals. -/
def calculateRSI (data : List ChartData) (period : ℕ) : IndicatorResult :=
  let prices := data.map (·.price)
  let vals := (List.range (data.length - period)).map
    (fun m => rsiValueAt prices period (period + m))
  { values := vals
    signals := vals.map (fun v =>
      if jlt (.num 70) v then "overbought"
      else if jlt v (.num 30) then "oversold"
      else "neutral") }

/-- `calculateMACD` of the source: MACD line as the positional difference of the
two EMA arrays, signal line as an EMA of the MACD line, histogram as the
positional difference of MACD line and signal line, and zero-crossing signals. -/
structure MACDResult where
  macd : List JSNum
  signal : List JSNum
  histogram : List JSNum
  signals : List String
deriving DecidableEq, Repr

def calculateMACD (data : List ChartData)
    (fastPeriod slowPeriod signalPeriod : ℕ) : MACDResult :=
  let prices := data.map (fun d => JSNum.num d.price)
  let fastEMA := emaCalc fastPeriod prices
  let slowEMA := emaCalc slowPeriod prices
  let macdLine := (List.range fastEMA.length).map
    (fun i => jsub (jidx fastEMA i) (jidx slowEMA i))
  let signalLine := emaCalc signalPeriod macdLine
  let histogram := (List.range macdLine.length).map
    (fun i => jsub (jidx macdLine i) (jidx signalLine i))
  let signals := (List.range (histogram.length - 1)).map (fun i =>
    if jlt (jidx histogram i) (.num 0) && jlt (.num 0) (jidx histogram (i + 1)) then "buy"
    else if jlt (.num 0) (jidx histogram i) && jlt (jidx histogram (i + 1)) (.num 0) then "sell"
    else "neutral")
  { macd := macdLine, signal := signalLine, histogram := histogram, signals := signals }

/-- `calculateBollingerBands` of the source: per window, the mean of the trailing
`period` prices (via `SMA.calculate` on the slice), the population standard
deviation of the slice, and bands at `± stdDev * multiplier`. -/
structure BollingerResult where
  upperBand : List ℝ
  middleBand : List ℝ
  lowerBand : List ℝ
  signals : List String

/-- The trailing window `prices.slice(i - period, i)` of the source. -/
def bollSlice (prices : List ℚ) (period i : ℕ) : List ℚ :=
  (prices.drop (i - period)).take period

/-- The window mean of the source, obtained as `SMA.calculate(slice)[0]`. -/
def bollSMA (prices : List ℚ) (period i : ℕ) : ℚ :=
  (smaCalc period (bollSlice prices period i)).getD 0 0

/-- The window variance of the source (before `Math.sqrt`). -/
def bollVar (prices : List ℚ) (period i : ℕ) : ℚ :=
  ((bollSlice prices period i).map
    (fun p => (p - bollSMA prices period i) ^ 2)).sum / (period : ℚ)

noncomputable def calculateBollingerBands (data : List ChartData)
    (period : ℕ) (multiplier : ℚ) : BollingerResult :=
  let prices := data.map (·.price)
  let stdDev := fun i => Real.sqrt ((bollVar prices period i : ℚ) : ℝ)
  let upper := fun i => ((bollSMA prices period i : ℚ) : ℝ) + stdDev i * (multiplier : ℝ)
  let lower := fun i => ((bollSMA prices period i : ℚ) : ℝ) - stdDev i * (multiplier : ℝ)
  { upperBand := (List.range (data.length - period)).map (fun m => upper (period + m))
    middleBand := (List.range (data.length - period)).map
      (fun m => ((bollSMA prices period (period + m) : ℚ) : ℝ))
    lowerBand := (List.range (data.length - period)).map (fun m => lower (period + m))
    signals := (List.range (data.length - period)).map (fun m =>
      if ((prices.getD (period + m) 0 : ℚ) : ℝ) > upper (period + m) then "sell"
      else if ((prices.getD (period + m) 0 : ℚ) : ℝ) < lower (period + m) then "buy"
      else "neutral") }

/-- `calculateMovingAverages` of the source: two SMAs and crossover signals;
an out-of-range read of the longer average makes both comparisons false. -/
structure MAResult where
  shortMA : List ℚ
  longMA : List ℚ
  signals : List String
deriving DecidableEq, Repr

/-- `a < b` on JS array reads that may be `undefined` (out of range): any
comparison involving `undefined` is false. -/
def oLt : Option ℚ → Option ℚ → Bool
  | some a, some b => decide (a < b)
  | _, _ => false

def calculateMovingAverages (data : List ChartData)
    (shortPeriod longPeriod : ℕ) : MAResult :=
  let prices := data.map (·.price)
  let shortMA := smaCalc shortPeriod prices
  let longMA := smaCalc longPeriod prices
  let signals := (List.range (shortMA.length - 1)).map (fun i =>
    if oLt (shortMA.get? i) (longMA.get? i)
        && oLt (longMA.get? (i + 1)) (shortMA.get? (i + 1)) then "buy"
    else if oLt (longMA.get? i) (shortMA.get? i)
        && oLt (shortMA.get? (i + 1)) (longMA.get? (i + 1)) then "sell"
    else "neutral")
  { shortMA := shortMA, longMA := longMA, signals := signals }

/-- `calculateVolume` of the source: missing volumes coalesced to `0`, an SMA of
volume, and spike signals (a spike test against an out-of-range SMA read is
false, as the JS comparison with `undefined * 1.5` is). -/
structure VolumeResult where
  volume : List ℚ
  volumeMA : List ℚ
  signals : List String
deriving DecidableEq, Repr

def calculateVolume (data : List ChartData) (period : ℕ) : VolumeResult :=
  let volume := data.map (fun d => d.volume.getD 0)
  let volumeMA := smaCalc period volume
  let prices := data.map (·.price)
  let spike := fun i =>
    match volumeMA.get? i with
    | some m => decide (m * (3 / 2) < volume.getD i 0)
    | none => false
  let signals := (List.range (volume.length - 1)).map (fun i =>
    if spike i && decide (prices.getD i 0 < prices.getD (i + 1) 0) then "buy"
    else if spike i && decide (prices.getD (i + 1) 0 < prices.getD i 0) then "sell"
    else "neutral")
  { volume := volume, volumeMA := volumeMA, signals := signals }

/-- Modelled from the spec: the true-range sequence used by `ATR.calculate` and
`ADX.calculate` — `max(high-low, |high-prevClose|, |low-prevClose|)` per bar
after the first (spec section 4.2). -/
def trueRanges (high low close : List ℚ) : List ℚ :=
  (List.range (close.length - 1)).map (fun i =>
    max (high.getD (i + 1) 0 - low.getD (i + 1) 0)
      (max |high.getD (i + 1) 0 - close.getD i 0| |low.getD (i + 1) 0 - close.getD i 0|))

/-- Modelled from the spec: Wilder running smoothing over a series — seed is the
sum of the first `period` terms, then `s - s/period + x` per further term. -/
def wilderSmooth (period : ℕ) (xs : List ℚ) : List ℚ :=
  if period = 0 then []
  else if xs.length < period then []
  else (xs.drop period).scanl
    (fun s x => s - s / (period : ℚ) + x) ((xs.take period).sum)

/-- Modelled from the spec: `ADX.calculate` of the external `technicalindicators`
package — standard Wilder directional-movement / true-range smoothing yielding
the trend-strength index (spec section 4.2). -/
def adxCalc (period : ℕ) (high low close : List ℚ) : List JSNum :=
  let n := close.length
  let pdm := (List.range (n - 1)).map (fun i =>
    let up := high.getD (i + 1) 0 - high.getD i 0
    let dn := low.getD i 0 - low.getD (i + 1) 0
    if dn < up ∧ 0 < up then up else 0)
  let ndm := (List.range (n - 1)).map (fun i =>
    let up := high.getD (i + 1) 0 - high.getD i 0
    let dn := low.getD i 0 - low.getD (i + 1) 0
    if up < dn ∧ 0 < dn then dn else 0)
  let sP := wilderSmooth period pdm
  let sN := wilderSmooth period ndm
  let sTR := wilderSmooth period (trueRanges high low close)
  let dxs := (List.range sTR.length).map (fun j =>
    let dip := jdiv (.num (100 * sP.getD j 0)) (.num (sTR.getD j 0))
    let dim := jdiv (.num (100 * sN.getD j 0)) (.num (sTR.getD j 0))
    jdiv (jmul (.num 100) (jabs (jsub dip dim))) (jadd dip dim))
  if period = 0 then []
  else if dxs.length < period then []
  else (dxs.drop period).scanl
    (fun prev dx => jdiv (jadd (jmul prev (.num ((period : ℚ) - 1))) dx) (.num (period : ℚ)))
    (jdiv ((dxs.take period).foldl jadd (.num 0)) (.num (period : ℚ)))

/-- Modelled from the spec: `OBV.calculate` of the external `technicalindicators`
package — running cumulative volume signed by the close-price direction, defined
from the first bar on (spec section 4.2). -/
def obvAux (prevClose prevObv : ℚ) : List (ℚ × ℚ) → List ℚ
  | [] => []
  | (c, v) :: rest =>
      let o := if prevClose < c then prevObv + v
        else if c < prevClose then prevObv - v else prevObv
      o :: obvAux c o rest

def obvCalc (close volume : List ℚ) : List ℚ :=
  match close.zip volume with
  | [] => []
  | (c, _) :: rest => 0 :: obvAux c 0 rest

/-- Modelled from the spec: `VWAP.calculate` of the external `technicalindicators`
package — cumulative typical-price × volume over cumulative volume. -/
def vwapCalc (high low close volume : List ℚ) : List JSNum :=
  let tp := fun i => (high.getD i 0 + low.getD i 0 + close.getD i 0) / 3
  (List.range close.length).map (fun i =>
    let cpv := ((List.range (i + 1)).map (fun j => tp j * volume.getD j 0)).sum
    let cv := ((List.range (i + 1)).map (fun j => volume.getD j 0)).sum
    jdiv (.num cpv) (.num cv))

/-- Modelled from the spec: `ATR.calculate` of the external `technicalindicators`
package — Wilder-smoothed average of the true range, warm-up `period`. -/
def atrCalc (period : ℕ) (high low close : List ℚ) : List JSNum :=
  let trs := trueRanges high low close
  if period = 0 then []
  else if trs.length < period then []
  else (trs.drop period).scanl
    (fun prev tr =>
      jdiv (jadd (jmul prev (.num ((period : ℚ) - 1))) (.num tr)) (.num (period : ℚ)))
    (jdiv (.num (trs.take period).sum) (.num (period : ℚ)))

/-- Modelled from the spec: `CCI.calculate` of the external `technicalindicators`
package — `(typicalPrice - SMA(typicalPrice)) / (0.015 × mean absolute deviation)`. -/
def cciCalc (period : ℕ) (high low close : List ℚ) : List JSNum :=
  if period = 0 then []
  else
    let tp := fun i => (high.getD i 0 + low.getD i 0 + close.getD i 0) / 3
    (List.range (close.length + 1 - period)).map (fun m =>
      let w := (List.range period).map (fun k => tp (m + k))
      let sma := w.sum / (period : ℚ)
      let mad := (w.map (fun x => |x - sma|)).sum / (period : ℚ)
      jdiv (.num (tp (m + period - 1) - sma)) (.num (3 / 200 * mad)))

/-- The %K arithmetic of the Stochastic oscillator:
`100 × (close - lowestLow) / (highestHigh - lowestLow)` with JS division. -/
def percentK (c hh ll : ℚ) : JSNum :=
  jdiv (.num (100 * (c - ll))) (.num (hh - ll))

/-- Modelled from the spec: `Stochastic.calculate` of the external
`technicalindicators` package — %K over the trailing `period` window. -/
def stochCalc (period : ℕ) (high low close : List ℚ) : List JSNum :=
  if period = 0 then []
  else (List.range (close.length + 1 - period)).map (fun m =>
    let hw := (List.range period).map (fun k => high.getD (m + k) 0)
    let lw := (List.range period).map (fun k => low.getD (m + k) 0)
    percentK (close.getD (m + period - 1) 0)
      (hw.foldl max (hw.headD 0)) (lw.foldl min (lw.headD 0)))

/-- Modelled from the spec: `ROC.calculate` of the external `technicalindicators`
package — percent change against the value `period` bars earlier. -/
def rocCalc (period : ℕ) (values : List ℚ) : List JSNum :=
  (List.range (values.length - period)).map (fun m =>
    jdiv (.num ((values.getD (m + period) 0 - values.getD m 0) * 100))
      (.num (values.getD m 0)))

/-- The MFI arithmetic given summed positive and negative money flow:
`100 - 100/(1 + posFlow/negFlow)` with JS division. -/
def mfiValue (pos neg : ℚ) : JSNum :=
  jsub (.num 100) (jdiv (.num 100) (jadd (.num 1) (jdiv (.num pos) (.num neg))))

/-- Modelled from the spec: `MFI.calculate` of the external `technicalindicators`
package — volume-weighted RSI analogue over typical-price money flow. -/
def mfiCalc (period : ℕ) (high low close volume : List ℚ) : List JSNum :=
  let tp := fun i => (high.getD i 0 + low.getD i 0 + close.getD i 0) / 3
  (List.range (close.length - period)).map (fun m =>
    let pos := ((List.range period).map (fun k =>
      if tp (m + k) < tp (m + k + 1) then tp (m + k + 1) * volume.getD (m + k + 1) 0
      else 0)).sum
    let neg := ((List.range period).map (fun k =>
      if tp (m + k + 1) < tp (m + k) then tp (m + k + 1) * volume.getD (m + k + 1) 0
      else 0)).sum
    mfiValue pos neg)

/-- `calculateADX` of the source: missing high/low coalesced to `0`, strong/weak
signal at the 25 threshold. -/
def calculateADX (data : List ChartData) (period : ℕ) : IndicatorResult :=
  let values := adxCalc period (data.map (fun d => d.high.getD 0))
    (data.map (fun d => d.low.getD 0)) (data.map (·.price))
  { values := values
    signals := values.map (fun v => if jlt (.num 25) v then "strong" else "weak") }

/-- `calculateOBV` of the source: buy when the OBV value rose against the
previous one, sell otherwise, and neutral at index 0. -/
structure OBVResult where
  values : List ℚ
  signals : List String
deriving DecidableEq, Repr

def calculateOBV (data : List ChartData) : OBVResult :=
  let values := obvCalc (data.map (·.price)) (data.map (fun d => d.volume.getD 0))
  { values := values
    signals := (List.range values.length).map (fun i =>
      if i = 0 then "neutral"
      else if values.getD (i - 1) 0 < values.getD i 0 then "buy" else "sell") }

/-- `calculateVWAP` of the source: all signals neutral. -/
def calculateVWAP (data : List ChartData) : IndicatorResult :=
  let values := vwapCalc (data.map (fun d => d.high.getD 0))
    (data.map (fun d => d.low.getD 0)) (data.map (·.price))
    (data.map (fun d => d.volume.getD 0))
  { values := values, signals := values.map (fun _ => "neutral") }

/-- `calculateATR` of the source: all signals neutral. -/
def calculateATR (data : List ChartData) (period : ℕ) : IndicatorResult :=
  let values := atrCalc period (data.map (fun d => d.high.getD 0))
    (data.map (fun d => d.low.getD 0)) (data.map (·.price))
  { values := values, signals := values.map (fun _ => "neutral") }

/-- `calculateCCI` of the source: overbought above 100, oversold below -100. -/
def calculateCCI (data : List ChartData) (period : ℕ) : IndicatorResult :=
  let values := cciCalc period (data.map (fun d => d.high.getD 0))
    (data.map (fun d => d.low.getD 0)) (data.map (·.price))
  { values := values
    signals := values.map (fun v =>
      if jlt (.num 100) v then "overbought"
      else if jlt v (.num (-100)) then "oversold" else "neutral") }

/-- `calculateStoch` of the source: %K values with 80/20 thresholds (the signal
period is passed to the library for %D but only %K is kept). -/
def calculateStoch (data : List ChartData) (period signalPeriod : ℕ) : IndicatorResult :=
  let _ := signalPeriod
  let values := stochCalc period (data.map (fun d => d.high.getD 0))
    (data.map (fun d => d.low.getD 0)) (data.map (·.price))
  { values := values
    signals := values.map (fun v =>
      if jlt (.num 80) v then "overbought"
      else if jlt v (.num 20) then "oversold" else "neutral") }

/-- `calculateROC` of the source: buy above 0, sell below 0. -/
def calculateROC (data : List ChartData) (period : ℕ) : IndicatorResult :=
  let values := rocCalc period (data.map (·.price))
  { values := values
    signals := values.map (fun v =>
      if jlt (.num 0) v then "buy" else if jlt v (.num 0) then "sell" else "neutral") }

/-- `calculateMFI` of the source: overbought above 80, oversold below 20. -/
def calculateMFI (data : List ChartData) (period : ℕ) : IndicatorResult :=
  let values := mfiCalc period (data.map (fun d => d.high.getD 0))
    (data.map (fun d => d.low.getD 0)) (data.map (·.price))
    (data.map (fun d => d.volume.getD 0))
  { values := values
    signals := values.map (fun v =>
      if jlt (.num 80) v then "overbought"
      else if jlt v (.num 20) then "oversold" else "neutral") }

/-- An enriched output bar: the spread input bar plus every indicator field the
facade attaches; `none` is JS `undefined`. The `volume` field is overridden by
the facade with the coalesced numeric volume. -/
structure EnrichedBar where
  timestamp : ℚ
  price : ℚ
  volume : Option ℚ
  high : Option ℚ
  low : Option ℚ
  rsi : Option JSNum
  macd : Option JSNum
  macdSignal : Option JSNum
  macdHistogram : Option JSNum
  upperBand : Option ℝ
  middleBand : Option ℝ
  lowerBand : Option ℝ
  shortMA : Option ℚ
  longMA : Option ℚ
  volumeMA : Option ℚ
  adx : Option JSNum
  obv : Option ℚ
  vwap : Option JSNum
  atr : Option JSNum
  cci : Option JSNum
  stoch : Option JSNum
  roc : Option JSNum
  mfi : Option JSNum

/-- The grouped per-indicator signal sequences returned by the facade. -/
structure AllSignals where
  rsi : List String
  macd : List String
  bollinger : List String
  ma : List String
  volume : List String
  adx : List String
  obv : List String
  vwap : List String
  atr : List String
  cci : List String
  stoch : List String
  roc : List String
  mfi : List String
deriving DecidableEq, Repr

structure AllIndicatorsResult where
  data : List EnrichedBar
  signals : AllSignals

/-- The `padValues` helper of the facade: left-pad with `undefined` up to the
requested length. -/
def padValues {α : Type} (values : List α) (length : ℕ) : List (Option α) :=
  List.replicate (length - values.length) none ++ values.map some

/-- A fallback bar for the (never reached) out-of-range case of the indexed map
over the input data. -/
def dummyBar : ChartData := ⟨0, 0, none, none, none⟩

/-- `calculateAllIndicators` of the source: run every indicator with the
source's fixed default parameters, pad, and merge onto the input timeline. -/
noncomputable def calculateAllIndicators (data : List ChartData) : AllIndicatorsResult :=
  let rsiResult := calculateRSI data 14
  let macdResult := calculateMACD data 12 26 9
  let bollingerResult := calculateBollingerBands data 20 2
  let maResult := calculateMovingAverages data 50 200
  let volumeResult := calculateVolume data 20
  let adxResult := calculateADX data 14
  let obvResult := calculateOBV data
  let vwapResult := calculateVWAP data
  let atrResult := calculateATR data 14
  let cciResult := calculateCCI data 20
  let stochResult := calculateStoch data 14 3
  let rocResult := calculateROC data 12
  let mfiResult := calculateMFI data 14
  let paddedAdxValues := padValues adxResult.values data.length
  let paddedVwapValues := padValues vwapResult.values data.length
  let paddedMfiValues := padValues mfiResult.values data.length
  let paddedObvValues := padValues obvResult.values data.length
  let paddedCciValues := padValues cciResult.values data.length
  let paddedStochValues := padValues stochResult.values data.length
  let paddedRocValues := padValues rocResult.values data.length
  let newData : List EnrichedBar := (List.range data.length).map (fun i =>
    let d := data.getD i dummyBar
    { timestamp := d.timestamp
      price := d.price
      high := d.high
      low := d.low
      rsi := if 14 ≤ i then rsiResult.values.get? (i - 14) else none
      macd := if 26 ≤ i then macdResult.macd.get? (i - 26) else none
      macdSignal := if 26 + 9 ≤ i then macdResult.signal.get? (i - 26 - 9) else none
      macdHistogram := if 26 + 9 ≤ i then macdResult.histogram.get? (i - 26 - 9) else none
      upperBand := if 20 ≤ i then bollingerResult.upperBand.get? (i - 20) else none
      middleBand := if 20 ≤ i then bollingerResult.middleBand.get? (i - 20) else none
      lowerBand := if 20 ≤ i then bollingerResult.lowerBand.get? (i - 20) else none
      shortMA := if 50 ≤ i then maResult.shortMA.get? (i - 50) else none
      longMA := if 200 ≤ i then maResult.longMA.get? (i - 200) else none
      volume := volumeResult.volume.get? i
      volumeMA := if 20 ≤ i then volumeResult.volumeMA.get? (i - 20) else none
      adx := (paddedAdxValues.get? i).getD none
      obv := (paddedObvValues.get? i).getD none
      vwap := (paddedVwapValues.get? i).getD none
      atr := if 14 ≤ i then atrResult.values.get? (i - 14) else none
      cci := (paddedCciValues.get? i).getD none
      stoch := (paddedStochValues.get? i).getD none
      roc := (paddedRocValues.get? i).getD none
      mfi := (paddedMfiValues.get? i).getD none })
  { data := newData
    signals :=
      { rsi := rsiResult.signals
        macd := macdResult.signals
        bollinger := bollingerResult.signals
        ma := maResult.signals
        volume := volumeResult.signals
        adx := adxResult.signals
        obv := obvResult.signals
        vwap := vwapResult.signals
        atr := atrResult.signals
        cci := cciResult.signals
        stoch := stochResult.signals
        roc := rocResult.signals
        mfi := mfiResult.signals } }

/-! ### Generic facts about the embedded definitions -/

lemma smaCalc_length (p : ℕ) (vs : List ℚ) :
    (smaCalc p vs).length = if p = 0 then 0 else vs.length + 1 - p := by
  unfold smaCalc
  split <;> simp

lemma emaCalc_length (p : ℕ) (vs : List JSNum) :
    (emaCalc p vs).length =
      if p = 0 then 0 else if vs.length < p then 0 else vs.length + 1 - p := by
  unfold emaCalc
  split
  · simp
  · split
    · simp_all
    · simp_all [List.length_scanl]
      omega

/-- Concrete input bars used by the concrete evaluations below. -/
def d1 : List ChartData := [⟨0, 1, none, none, none⟩]

def d2 : List ChartData := [⟨0, 1, none, none, none⟩, ⟨1, 2, none, none, none⟩]

def d3 : List ChartData :=
  [⟨0, 1, none, none, none⟩, ⟨1, 2, none, none, none⟩, ⟨2, 4, none, none, none⟩]

def dFlat2 : List ChartData := [⟨0, 5, some 1, none, none⟩, ⟨1, 5, some 1, none, none⟩]

/-! ### C1 — output lengths of the facade -/

/-- Claim C1, as amended: the enriched sequence always has the input's length,
but the per-indicator signal sequences are returned unpadded at their raw
lengths — RSI `L-14`, MACD `L-12`, Bollinger `L-20`, MA-cross `L-50`,
Volume `L-1` — not at the input length. -/
theorem allIndicators_enriched_length (data : List ChartData) :
    (calculateAllIndicators data).data.length = data.length
    ∧ (calculateAllIndicators data).signals.rsi.length = data.length - 14
    ∧ (calculateAllIndicators data).signals.macd.length = data.length - 12
    ∧ (calculateAllIndicators data).signals.bollinger.length = data.length - 20
    ∧ (calculateAllIndicators data).signals.ma.length = data.length - 50
    ∧ (calculateAllIndicators data).signals.volume.length = data.length - 1 := by
  refine ⟨?_, ?_, ?_, ?_, ?_, ?_⟩
  · show ((List.range data.length).map _).length = data.length
    simp
  · show (calculateRSI data 14).signals.length = data.length - 14
    simp [calculateRSI]
  · show (calculateMACD data 12 26 9).signals.length = data.length - 12
    simp [calculateMACD, emaCalc_length]
    split <;> omega
  · show (calculateBollingerBands data 20 2).signals.length = data.length - 20
    simp [calculateBollingerBands]
  · show (calculateMovingAverages data 50 200).signals.length = data.length - 50
    simp [calculateMovingAverages, smaCalc_length]
    omega
  · show (calculateVolume data 20).signals.length = data.length - 1
    simp [calculateVolume]

/-- Claim C1, counterexample to the claim as stated: on a one-bar input the
RSI signal sequence in the returned map is empty, not of the input's length. -/
theorem allIndicators_signal_length_counterexample :
    (calculateAllIndicators d1).signals.rsi.length ≠ d1.length := by
  show (calculateRSI d1 14).signals.length ≠ d1.length
  decide

/-! ### C5 — warm-up boundary -/

/-- Claim C5, as amended: for an input of length `N ≤ period` (including
`N = period`) the RSI and Bollinger outputs are entirely absent; the first
value appears only at `N = period + 1`, as exactly one value. -/
theorem warmup_output_lengths (data : List ChartData) (period : ℕ) :
    (data.length ≤ period →
      (calculateRSI data period).values = []
      ∧ (calculateBollingerBands data period 2).upperBand = [])
    ∧ (data.length = period + 1 →
      (calculateRSI data period).values.length = 1
      ∧ (calculateBollingerBands data period 2).upperBand.length = 1) := by
  constructor
  · intro h
    have hz : data.length - period = 0 := by omega
    constructor
    · simp [calculateRSI, hz]
    · simp [calculateBollingerBands, hz]
  · intro h
    have hone : data.length - period = 1 := by omega
    constructor
    · simp [calculateRSI, hone]
    · simp [calculateBollingerBands, hone]

/-- Claim C5, witness for the amended claim: the empty-output case at
`N = period = 2` and the single-value case at `N = 3 = period + 1`. -/
theorem warmup_output_lengths_witness :
    (calculateRSI d2 2).values = [] ∧ (calculateRSI d3 2).values.length = 1 :=
  ⟨((warmup_output_lengths d2 2).1 (by decide)).1,
    ((warmup_output_lengths d3 2).2 (by decide)).1⟩

/-- Claim C5, counterexample to the claim as stated: at `N = period = 2` the
RSI and Bollinger outputs are empty — no value appears at the last index. -/
theorem warmup_at_period_counterexample :
    d2.length = 2
    ∧ (calculateRSI d2 2).values = []
    ∧ (calculateBollingerBands d2 2 2).upperBand = [] :=
  ⟨rfl, rfl, rfl⟩

/-! ### C7 — no period validation exists -/

/-- Claim C7, as amended: no invalid-configuration error is reported anywhere —
the functions have no error channel. A `period` of `0` silently yields one
`NaN` value per input bar, and a `period` larger than the input silently
yields an empty output; nothing is aborted and nothing is reported. -/
theorem rsi_no_period_validation (data : List ChartData) :
    (calculateRSI data 0).values.length = data.length
    ∧ (∀ v ∈ (calculateRSI data 0).values, v = JSNum.nan)
    ∧ (∀ p, data.length < p → (calculateRSI data p).values = []) := by
  refine ⟨?_, ?_, ?_⟩
  · simp [calculateRSI]
  · intro v hv
    simp only [calculateRSI, List.mem_map, List.mem_range] at hv
    obtain ⟨m, -, rfl⟩ := hv
    rfl
  · intro p hp
    have hz : data.length - p = 0 := by omega
    simp [calculateRSI, hz]

/-- Claim C7, witness: the degenerate outputs at concrete invalid periods. -/
theorem rsi_no_period_validation_witness :
    (calculateRSI d2 0).values.length = d2.length
    ∧ JSNum.nan = JSNum.nan
    ∧ (calculateRSI d2 5).values = [] :=
  ⟨(rsi_no_period_validation d2).1,
    (rsi_no_period_validation d2).2.1 JSNum.nan (by decide),
    (rsi_no_period_validation d2).2.2 5 (by decide)⟩

/-- Claim C7, counterexample to the claim as stated: with `period = 0 < 1` the
RSI computation is not aborted and no error is reported — it returns one `NaN`
value per bar. -/
theorem rsi_period_zero_not_aborted :
    (calculateRSI d2 0).values = [JSNum.nan, JSNum.nan]
    ∧ (calculateRSI d2 0).values.length ≠ 0 := by
  constructor <;> decide

/-! ### C10 — OBV signal rule -/

/-- Claim C10: the OBV signal at index 0 is neutral, and at `i > 0` it is buy
exactly when the OBV value rose and sell otherwise — in particular a flat
transition yields sell, not neutral. -/
theorem obv_signal_rule (data : List ChartData) :
    (∀ i, i < (calculateOBV data).values.length →
      (calculateOBV data).signals.get? i = some (
        if i = 0 then "neutral"
        else if (calculateOBV data).values.getD (i - 1) 0
            < (calculateOBV data).values.getD i 0 then "buy"
        else "sell"))
    ∧ (∀ i, 0 < i → i < (calculateOBV data).values.length →
        (calculateOBV data).values.getD i 0 = (calculateOBV data).values.getD (i - 1) 0 →
        (calculateOBV data).signals.get? i = some "sell") := by
  have key : ∀ i, i < (calculateOBV data).values.length →
      (calculateOBV data).signals.get? i = some (
        if i = 0 then "neutral"
        else if (calculateOBV data).values.getD (i - 1) 0
            < (calculateOBV data).values.getD i 0 then "buy"
        else "sell") := by
    intro i hi
    show ((List.range (calculateOBV data).values.length).map _).get? i = _
    rw [List.get?_map, List.get?_range hi]
    rfl
  refine ⟨key, fun i hpos hi heq => ?_⟩
  rw [key i hi, if_neg (Nat.pos_iff_ne_zero.mp hpos),
    if_neg (by rw [heq]; exact lt_irrefl _)]

/-- Claim C10, witness: on a flat two-bar series the OBV is flat and the signal
at index 1 is sell. -/
theorem obv_signal_rule_witness :
    (calculateOBV dFlat2).signals.get? 1 = some "sell" :=
  (obv_signal_rule dFlat2).2 1 (by decide) (by decide) (by decide)

/-! ### C3 — RSI on zero-average-loss windows -/

/-- A strictly increasing rational sequence, decidably. -/
def strictlyIncreasing : List ℚ → Bool
  | [] => true
  | [_] => true
  | a :: b :: r => decide (a < b) && strictlyIncreasing (b :: r)

lemma strictlyIncreasing_getD {l : List ℚ} (h : strictlyIncreasing l = true) :
    ∀ i, i + 1 < l.length → l.getD i 0 < l.getD (i + 1) 0 := by
  induction l with
  | nil => intro i hi; simp at hi
  | cons a t ih =>
    cases t with
    | nil => intro i hi; simp at hi
    | cons b r =>
      rw [strictlyIncreasing, Bool.and_eq_true, decide_eq_true_eq] at h
      intro i hi
      cases i with
      | zero => simpa using h.1
      | succ j =>
        have := ih h.2 j (by simpa using hi)
        simpa using this

/-- The RSI arithmetic saturates at exactly 100 when the loss sum is zero and
the gain sum is positive (the `Infinity` path of the JS division). -/
lemma rsiFromSums_sat (g : ℚ) (p : ℕ) (hg : 0 < g) (hp : p ≠ 0) :
    rsiFromSums g 0 p = .num 100 := by
  have hpQ : ((p : ℕ) : ℚ) ≠ 0 := Nat.cast_ne_zero.mpr hp
  have hgp : 0 < g / (p : ℚ) :=
    div_pos hg (by exact_mod_cast Nat.pos_of_ne_zero hp)
  have h1 : jdiv (.num g) (.num (p : ℚ)) = .num (g / (p : ℚ)) := by
    simp [jdiv, hpQ]
  have h2 : jdiv (.num 0) (.num (p : ℚ)) = .num 0 := by
    simp [jdiv, hpQ]
  have h3 : jdiv (.num (g / (p : ℚ))) (.num 0) = .posInf := by
    simp [jdiv, hgp]
  simp only [rsiFromSums]
  rw [h1, h2, h3]
  norm_num [jadd, jdiv, jsub, jneg]

/-- Claim C3, as amended: on a strictly increasing close series every window
has zero average loss and positive average gain, and every present RSI value is
exactly 100 (this covers the 30-bar scenario); but a window whose average gain
is also zero — a flat window — yields `NaN`, not 100, so "average loss zero"
alone does not guarantee 100. -/
theorem rsi_strictly_increasing_100 (data : List ChartData) (period : ℕ)
    (hp : 1 ≤ period)
    (hinc : strictlyIncreasing (data.map (·.price)) = true) :
    ∀ v ∈ (calculateRSI data period).values, v = JSNum.num 100 := by
  intro v hv
  simp only [calculateRSI, List.mem_map, List.mem_range] at hv
  obtain ⟨m, hm, rfl⟩ := hv
  have hlen : (data.map (·.price)).length = data.length := List.length_map _ _
  have hchg : ∀ c ∈ rsiChanges (data.map (·.price)) period (period + m), 0 < c := by
    intro c hc
    simp only [rsiChanges, List.mem_map, List.mem_range] at hc
    obtain ⟨k, hk, rfl⟩ := hc
    have e1 : period + m - period + k + 1 = m + k + 1 := by omega
    have e2 : period + m - period + k = m + k := by omega
    rw [e1, e2]
    have hbound : m + k + 1 < (data.map (·.price)).length := by rw [hlen]; omega
    have := strictlyIncreasing_getD hinc (m + k) hbound
    linarith
  simp only [rsiValueAt]
  have hgains : (rsiChanges (data.map (·.price)) period (period + m)).filter
      (fun c => decide (0 < c)) = rsiChanges (data.map (·.price)) period (period + m) := by
    rw [List.filter_eq_self]
    intro c hc
    exact decide_eq_true (hchg c hc)
  have hlosses : (rsiChanges (data.map (·.price)) period (period + m)).filter
      (fun c => decide (¬ 0 < c)) = [] := by
    rw [List.filter_eq_nil]
    intro c hc
    simpa using hchg c hc
  rw [hgains, hlosses]
  have hne : rsiChanges (data.map (·.price)) period (period + m) ≠ [] := by
    simp [rsiChanges, List.range_eq_nil]
    omega
  have hsum : 0 < (rsiChanges (data.map (·.price)) period (period + m)).sum :=
    List.sum_pos _ hchg hne
  simpa using rsiFromSums_sat _ period hsum (by omega)

/-- A 30-bar strictly increasing close-price series. -/
def d30 : List ChartData :=
  [⟨0, 1, none, none, none⟩, ⟨1, 2, none, none, none⟩, ⟨2, 3, none, none, none⟩,
    ⟨3, 4, none, none, none⟩, ⟨4, 5, none, none, none⟩, ⟨5, 6, none, none, none⟩,
    ⟨6, 7, none, none, none⟩, ⟨7, 8, none, none, none⟩, ⟨8, 9, none, none, none⟩,
    ⟨9, 10, none, none, none⟩, ⟨10, 11, none, none, none⟩, ⟨11, 12, none, none, none⟩,
    ⟨12, 13, none, none, none⟩, ⟨13, 14, none, none, none⟩, ⟨14, 15, none, none, none⟩,
    ⟨15, 16, none, none, none⟩, ⟨16, 17, none, none, none⟩, ⟨17, 18, none, none, none⟩,
    ⟨18, 19, none, none, none⟩, ⟨19, 20, none, none, none⟩, ⟨20, 21, none, none, none⟩,
    ⟨21, 22, none, none, none⟩, ⟨22, 23, none, none, none⟩, ⟨23, 24, none, none, none⟩,
    ⟨24, 25, none, none, none⟩, ⟨25, 26, none, none, none⟩, ⟨26, 27, none, none, none⟩,
    ⟨27, 28, none, none, none⟩, ⟨28, 29, none, none, none⟩, ⟨29, 30, none, none, none⟩]

/-- Claim C3, witness: the 30-bar strictly increasing scenario with period 14. -/
theorem rsi_strictly_increasing_100_witness :
    1 ≤ 14
    ∧ strictlyIncreasing (d30.map (·.price)) = true
    ∧ ∀ v ∈ (calculateRSI d30 14).values, v = JSNum.num 100 :=
  ⟨by decide, by decide, rsi_strictly_increasing_100 d30 14 (by decide) (by decide)⟩

/-- A flat 15-bar close-price series. -/
def dFlat15 : List ChartData :=
  [⟨0, 5, none, none, none⟩, ⟨1, 5, none, none, none⟩, ⟨2, 5, none, none, none⟩,
    ⟨3, 5, none, none, none⟩, ⟨4, 5, none, none, none⟩, ⟨5, 5, none, none, none⟩,
    ⟨6, 5, none, none, none⟩, ⟨7, 5, none, none, none⟩, ⟨8, 5, none, none, none⟩,
    ⟨9, 5, none, none, none⟩, ⟨10, 5, none, none, none⟩, ⟨11, 5, none, none, none⟩,
    ⟨12, 5, none, none, none⟩, ⟨13, 5, none, none, none⟩, ⟨14, 5, none, none, none⟩]

/-- Claim C3, counterexample to the claim as stated: a flat window has zero
average loss, yet the RSI value is `NaN` (the JS `0/0`), not 100. -/
theorem rsi_flat_window_nan : (calculateRSI dFlat15 14).values = [JSNum.nan] := by
  norm_num [calculateRSI, rsiValueAt, rsiChanges, rsiFromSums, jdiv, jadd, jsub, jneg,
    dFlat15, List.range_succ]

/-! ### C8 — oscillator value ranges -/

lemma ratio_formula_bounds (r : ℚ) (hr : 0 ≤ r) :
    0 ≤ 100 - 100 / (1 + r) ∧ 100 - 100 / (1 + r) ≤ 100 := by
  have hpos : (0 : ℚ) < 1 + r := by positivity
  constructor
  · have h : 100 / (1 + r) ≤ 100 := by
      rw [div_le_iff hpos]
      nlinarith
    linarith
  · have h : 0 < 100 / (1 + r) := by positivity
    linarith

lemma ratio_formula_eval (r : ℚ) (h1r : (1 : ℚ) + r ≠ 0) :
    jsub (.num 100) (jdiv (.num 100) (jadd (.num 1) (.num r)))
      = .num (100 - 100 / (1 + r)) := by
  simp [jadd, jdiv, jsub, jneg, h1r, sub_eq_add_neg]

/-- Any numeric (non-`NaN`) outcome of the RSI arithmetic on nonnegative gain
and loss sums lies in `[0, 100]`. -/
lemma rsiFromSums_range (g l : ℚ) (p : ℕ) (hg : 0 ≤ g) (hl : 0 ≤ l) (q : ℚ)
    (h : rsiFromSums g l p = .num q) : 0 ≤ q ∧ q ≤ 100 := by
  by_cases hp : ((p : ℕ) : ℚ) = 0
  · exfalso
    by_cases h0 : 0 < g <;> by_cases h1 : 0 < l <;>
      simp [rsiFromSums, jdiv, jadd, jsub, jneg, hp, h0, h1,
        not_lt.mpr hg, not_lt.mpr hl] at h
  · have hpQpos : (0 : ℚ) < (p : ℚ) :=
      lt_of_le_of_ne (Nat.cast_nonneg p) (Ne.symm hp)
    rcases eq_or_lt_of_le hl with hl0 | hlpos
    · rcases eq_or_lt_of_le hg with hg0 | hgpos
      · exfalso
        simp [rsiFromSums, jdiv, jadd, jsub, jneg, hp, ← hg0, ← hl0] at h
      · have hsat : rsiFromSums g l p = .num 100 := by
          rw [← hl0]
          exact rsiFromSums_sat g p hgpos
            (fun hz => hp (by simp [hz]))
        rw [hsat] at h
        injection h with h'
        rw [← h']
        norm_num
    · have hlp : l / (p : ℚ) ≠ 0 := ne_of_gt (div_pos hlpos hpQpos)
      have hr : 0 ≤ g / (p : ℚ) / (l / (p : ℚ)) :=
        div_nonneg (div_nonneg hg (le_of_lt hpQpos)) (le_of_lt (div_pos hlpos hpQpos))
      have h1r : (1 : ℚ) + g / (p : ℚ) / (l / (p : ℚ)) ≠ 0 := by positivity
      have hval : rsiFromSums g l p
          = .num (100 - 100 / (1 + g / (p : ℚ) / (l / (p : ℚ)))) := by
        have e1 : jdiv (.num g) (.num (p : ℚ)) = .num (g / (p : ℚ)) := by
          simp [jdiv, hp]
        have e2 : jdiv (.num l) (.num (p : ℚ)) = .num (l / (p : ℚ)) := by
          simp [jdiv, hp]
        have e3 : jdiv (.num (g / (p : ℚ))) (.num (l / (p : ℚ)))
            = .num (g / (p : ℚ) / (l / (p : ℚ))) := by
          simp [jdiv, hlp]
        simp only [rsiFromSums]
        rw [e1, e2, e3, ratio_formula_eval _ h1r]
      rw [hval] at h
      injection h with h'
      rw [← h']
      exact ratio_formula_bounds _ hr

/-- Claim C8, as amended: wherever an oscillator value is an actual number the
documented bound holds for RSI unconditionally; %K is bounded by `[0, 100]`
only when the close lies inside the window range and the range is positive
(otherwise it exceeds the bound, see the counterexample); the MFI arithmetic is
bounded when its flow sums are a nonnegative numerator over a positive
denominator. A present value can also be `NaN`, which satisfies no bound. -/
theorem oscillator_bounds :
    (∀ (data : List ChartData) (period : ℕ) (q : ℚ),
      JSNum.num q ∈ (calculateRSI data period).values → 0 ≤ q ∧ q ≤ 100)
    ∧ (∀ c hh ll : ℚ, ll ≤ c → c ≤ hh → ll < hh →
        ∃ q, percentK c hh ll = .num q ∧ 0 ≤ q ∧ q ≤ 100)
    ∧ (∀ pos neg : ℚ, 0 ≤ pos → 0 < neg →
        ∃ q, mfiValue pos neg = .num q ∧ 0 ≤ q ∧ q ≤ 100) := by
  refine ⟨?_, ?_, ?_⟩
  · intro data period q hq
    simp only [calculateRSI, List.mem_map, List.mem_range] at hq
    obtain ⟨m, hm, hEq⟩ := hq
    simp only [rsiValueAt] at hEq
    refine rsiFromSums_range _ _ period ?_ ?_ q hEq
    · apply List.sum_nonneg
      intro a ha
      have := List.of_mem_filter ha
      simp only [decide_eq_true_eq] at this
      linarith
    · apply List.sum_nonneg
      intro a ha
      simp only [List.mem_map] at ha
      obtain ⟨c, hc, rfl⟩ := ha
      have := List.of_mem_filter hc
      simp only [decide_eq_true_eq, not_lt] at this
      linarith
  · intro c hh ll h1 h2 h3
    have hgt : (0 : ℚ) < hh - ll := by linarith
    refine ⟨100 * (c - ll) / (hh - ll), ?_, ?_, ?_⟩
    · simp [percentK, jdiv, ne_of_gt hgt]
    · apply div_nonneg _ (le_of_lt hgt)
      nlinarith
    · rw [div_le_iff hgt]
      nlinarith
  · intro pos neg hpos hneg
    have hne : (neg : ℚ) ≠ 0 := ne_of_gt hneg
    have hr : 0 ≤ pos / neg := div_nonneg hpos (le_of_lt hneg)
    have h1r : (1 : ℚ) + pos / neg ≠ 0 := by positivity
    refine ⟨100 - 100 / (1 + pos / neg), ?_,
      (ratio_formula_bounds _ hr).1, (ratio_formula_bounds _ hr).2⟩
    have e : jdiv (.num pos) (.num neg) = .num (pos / neg) := by
      simp [jdiv, hne]
    simp only [mfiValue]
    rw [e, ratio_formula_eval _ h1r]

/-- Claim C8, witness: a numeric RSI value on a concrete input, and in-range
window hypotheses for %K and for the MFI arithmetic. -/
theorem oscillator_bounds_witness :
    ((0 : ℚ) ≤ 100 ∧ (100 : ℚ) ≤ 100)
    ∧ (∃ q, percentK 1 2 0 = .num q ∧ 0 ≤ q ∧ q ≤ 100)
    ∧ (∃ q, mfiValue 3 1 = .num q ∧ 0 ≤ q ∧ q ≤ 100) :=
  ⟨oscillator_bounds.1 d3 2 100 (by
      norm_num [calculateRSI, rsiValueAt, rsiChanges, rsiFromSums, jdiv, jadd, jsub,
        jneg, d3, List.range_succ]),
    oscillator_bounds.2.1 1 2 0 (by norm_num) (by norm_num) (by norm_num),
    oscillator_bounds.2.2 3 1 (by norm_num) (by norm_num)⟩

/-- Two bars whose close lies above the bar's high (the high/low fields are
independent inputs the source never validates against the close). -/
def dHL2 : List ChartData := [⟨0, 2, some 1, some 1, some 0⟩, ⟨1, 2, some 1, some 1, some 0⟩]

/-- Claim C8, counterexample to the claim as stated: the flat-window RSI entry
is a present `NaN`, which is not a number in `[0, 100]`, and a close above the
window's high makes %K equal 200. -/
theorem oscillator_out_of_range_values :
    JSNum.nan ∈ (calculateRSI dFlat15 14).values
    ∧ (calculateStoch dHL2 2 3).values = [JSNum.num 200]
    ∧ (∀ q : ℚ, JSNum.nan ≠ JSNum.num q)
    ∧ ¬ ((200 : ℚ) ≤ 100) := by
  refine ⟨?_, ?_, fun q h => JSNum.noConfusion h, by norm_num⟩
  · have hv : (calculateRSI dFlat15 14).values = [JSNum.nan] := by
      norm_num [calculateRSI, rsiValueAt, rsiChanges, rsiFromSums, jdiv, jadd, jsub,
        jneg, dFlat15, List.range_succ]
    rw [hv]
    simp
  · norm_num [calculateStoch, stochCalc, percentK, jdiv, dHL2, List.range_succ,
      max_def, min_def]

/-! ### C9 — Bollinger band ordering -/

lemma range_map_getD {α : Type} (f : ℕ → α) (n m : ℕ) (d : α) (h : m < n) :
    ((List.range n).map f).getD m d = f m := by
  rw [List.getD_eq_getElem?_getD, List.getElem?_map, List.getElem?_range h]
  rfl

lemma bollVar_flat (data : List ChartData) (period m : ℕ) (c : ℚ)
    (hflat : ∀ b ∈ data, b.price = c) (hmlt : m < data.length - period) :
    bollVar (data.map (·.price)) period (period + m) = 0 := by
  rcases Nat.eq_zero_or_pos period with hp | hp
  · subst hp
    simp [bollVar, bollSlice]
  · have hslice : ∀ x ∈ bollSlice (data.map (·.price)) period (period + m), x = c := by
      intro x hx
      have hx2 := List.mem_of_mem_drop (List.mem_of_mem_take hx)
      simp only [List.mem_map] at hx2
      obtain ⟨b, hb, rfl⟩ := hx2
      exact hflat b hb
    have hlen : (bollSlice (data.map (·.price)) period (period + m)).length = period := by
      simp only [bollSlice, List.length_take, List.length_drop, List.length_map]
      omega
    have hsma : bollSMA (data.map (·.price)) period (period + m) = c := by
      unfold bollSMA smaCalc
      rw [if_neg (Nat.pos_iff_ne_zero.mp hp), hlen]
      have h1 : period + 1 - period = 1 := by omega
      rw [h1]
      have h2 : ((List.range 1).map (fun i =>
          (((bollSlice (data.map (·.price)) period (period + m)).drop i).take period).sum
            / (period : ℚ))).getD 0 0
          = ((bollSlice (data.map (·.price)) period (period + m)).take period).sum
            / (period : ℚ) := by
        rw [range_map_getD _ _ _ _ Nat.one_pos]
        rw [List.drop_zero]
      rw [h2, List.take_all_of_le (le_of_eq hlen)]
      rw [List.sum_eq_card_nsmul _ c hslice, hlen, nsmul_eq_mul]
      have hpne : ((period : ℕ) : ℚ) ≠ 0 := Nat.cast_ne_zero.mpr (Nat.pos_iff_ne_zero.mp hp)
      field_simp
    unfold bollVar
    rw [hsma]
    have hzero : ∀ x ∈ (bollSlice (data.map (·.price)) period (period + m)).map
        (fun p => (p - c) ^ 2), x = 0 := by
      intro x hx
      obtain ⟨p, hp', rfl⟩ := List.mem_map.mp hx
      rw [hslice p hp']
      ring
    rw [List.sum_eq_zero hzero, zero_div]

/-- Claim C9: wherever the bands are present, `lower ≤ middle ≤ upper` (for a
nonnegative multiplier, the source default being 2), and on a constant close
series the variance is 0, so `upper = middle = lower`. -/
theorem bollinger_band_order (data : List ChartData) (period : ℕ) (mult : ℚ)
    (hm : 0 ≤ mult) (m : ℕ) (hmlt : m < data.length - period) :
    ((calculateBollingerBands data period mult).lowerBand.getD m 0
        ≤ (calculateBollingerBands data period mult).middleBand.getD m 0
      ∧ (calculateBollingerBands data period mult).middleBand.getD m 0
        ≤ (calculateBollingerBands data period mult).upperBand.getD m 0)
    ∧ ∀ c : ℚ, (∀ b ∈ data, b.price = c) →
        ((calculateBollingerBands data period mult).upperBand.getD m 0
          = (calculateBollingerBands data period mult).middleBand.getD m 0
        ∧ (calculateBollingerBands data period mult).lowerBand.getD m 0
          = (calculateBollingerBands data period mult).middleBand.getD m 0) := by
  have hu : (calculateBollingerBands data period mult).upperBand.getD m 0
      = ((bollSMA (data.map (·.price)) period (period + m) : ℚ) : ℝ)
        + Real.sqrt ((bollVar (data.map (·.price)) period (period + m) : ℚ) : ℝ)
          * ((mult : ℚ) : ℝ) := by
    show ((List.range (data.length - period)).map _).getD m 0 = _
    rw [range_map_getD _ _ _ _ hmlt]
  have hmid : (calculateBollingerBands data period mult).middleBand.getD m 0
      = ((bollSMA (data.map (·.price)) period (period + m) : ℚ) : ℝ) := by
    show ((List.range (data.length - period)).map _).getD m 0 = _
    rw [range_map_getD _ _ _ _ hmlt]
  have hl : (calculateBollingerBands data period mult).lowerBand.getD m 0
      = ((bollSMA (data.map (·.price)) period (period + m) : ℚ) : ℝ)
        - Real.sqrt ((bollVar (data.map (·.price)) period (period + m) : ℚ) : ℝ)
          * ((mult : ℚ) : ℝ) := by
    show ((List.range (data.length - period)).map _).getD m 0 = _
    rw [range_map_getD _ _ _ _ hmlt]
  have hprod : 0 ≤ Real.sqrt ((bollVar (data.map (·.price)) period (period + m) : ℚ) : ℝ)
      * ((mult : ℚ) : ℝ) :=
    mul_nonneg (Real.sqrt_nonneg _) (by exact_mod_cast hm)
  refine ⟨⟨by rw [hl, hmid]; linarith, by rw [hmid, hu]; linarith⟩, fun c hflat => ?_⟩
  have hvar := bollVar_flat data period m c hflat hmlt
  constructor
  · rw [hu, hmid, hvar]
    simp
  · rw [hl, hmid, hvar]
    simp

/-- A flat 25-bar close-price series. -/
def dFlat25 : List ChartData :=
  [⟨0, 5, none, none, none⟩, ⟨1, 5, none, none, none⟩, ⟨2, 5, none, none, none⟩,
    ⟨3, 5, none, none, none⟩, ⟨4, 5, none, none, none⟩, ⟨5, 5, none, none, none⟩,
    ⟨6, 5, none, none, none⟩, ⟨7, 5, none, none, none⟩, ⟨8, 5, none, none, none⟩,
    ⟨9, 5, none, none, none⟩, ⟨10, 5, none, none, none⟩, ⟨11, 5, none, none, none⟩,
    ⟨12, 5, none, none, none⟩, ⟨13, 5, none, none, none⟩, ⟨14, 5, none, none, none⟩,
    ⟨15, 5, none, none, none⟩, ⟨16, 5, none, none, none⟩, ⟨17, 5, none, none, none⟩,
    ⟨18, 5, none, none, none⟩, ⟨19, 5, none, none, none⟩, ⟨20, 5, none, none, none⟩,
    ⟨21, 5, none, none, none⟩, ⟨22, 5, none, none, none⟩, ⟨23, 5, none, none, none⟩,
    ⟨24, 5, none, none, none⟩]

/-- Claim C9, witness: the flat 25-bar scenario with period 20 and
multiplier 2 — the bands coincide at every present index. -/
theorem bollinger_band_order_witness :
    ((0 : ℚ) ≤ 2 ∧ 0 < dFlat25.length - 20 ∧ ∀ b ∈ dFlat25, b.price = 5)
    ∧ ((calculateBollingerBands dFlat25 20 2).upperBand.getD 0 0
        = (calculateBollingerBands dFlat25 20 2).middleBand.getD 0 0
      ∧ (calculateBollingerBands dFlat25 20 2).lowerBand.getD 0 0
        = (calculateBollingerBands dFlat25 20 2).middleBand.getD 0 0) :=
  ⟨⟨by norm_num, by decide, by decide⟩,
    (bollinger_band_order dFlat25 20 2 (by norm_num) 0 (by decide)).2 5 (by decide)⟩

/-! ### C6 — absent inputs are coalesced to zero, warm-up fields stay absent -/

/-- Claim C6, as amended: the facade does not preserve the absence of the
optional `volume` input — every enriched bar's `volume` is the number
`volume || 0` of the input bar, so an absent volume becomes the present
number 0; the warm-up prefix of the indicator fields (here RSI at `i < 14`)
does remain absent. -/
theorem enriched_volume_coalesced (data : List ChartData) (i : ℕ) :
    ((calculateAllIndicators data).data.get? i).map (fun b => b.volume)
      = (data.get? i).map (fun b => some (b.volume.getD 0))
    ∧ (i < 14 →
      ((calculateAllIndicators data).data.get? i).map (fun b => b.rsi)
        = (data.get? i).map (fun _ => (none : Option JSNum))) := by
  rcases Nat.lt_or_ge i data.length with hi | hi
  · have hdata : ∃ b, data.get? i = some b := by
      rw [List.get?_eq_get hi]
      exact ⟨_, rfl⟩
    obtain ⟨b, hb⟩ := hdata
    constructor
    · show ((((List.range data.length).map _ : List EnrichedBar).get? i).map
        (fun b => b.volume)) = _
      rw [List.get?_map, List.get?_range hi]
      show some ((data.map (fun d => d.volume.getD 0)).get? i) = _
      rw [List.get?_map, hb]
      rfl
    · intro h14
      show ((((List.range data.length).map _ : List EnrichedBar).get? i).map
        (fun b => b.rsi)) = _
      rw [List.get?_map, List.get?_range hi]
      show some (if 14 ≤ i then (calculateRSI data 14).values.get? (i - 14) else none) = _
      rw [if_neg (by omega), hb]
      rfl
  · have hdata : data.get? i = none := List.get?_eq_none.mpr hi
    have hlen : (calculateAllIndicators data).data.length = data.length := by
      show ((List.range data.length).map _).length = data.length
      simp
    have hout : (calculateAllIndicators data).data.get? i = none := by
      rw [List.get?_eq_none, hlen]
      exact hi
    rw [hout, hdata]
    exact ⟨rfl, fun _ => rfl⟩

/-- Claim C6, witness: the warm-up clause at a concrete in-range index. -/
theorem enriched_volume_coalesced_witness :
    ((calculateAllIndicators d2).data.get? 0).map (fun b => b.rsi)
      = (d2.get? 0).map (fun _ => (none : Option JSNum)) :=
  (enriched_volume_coalesced d2 0).2 (by decide)

/-- Claim C6, counterexample to the claim as stated: the first bar of `d2` has
an absent volume, yet the enriched bar holds the present number 0 there. -/
theorem enriched_volume_zero_counterexample :
    (d2.get? 0).map (fun b => b.volume) = some none
    ∧ ((calculateAllIndicators d2).data.get? 0).map (fun b => b.volume)
      = some (some 0) := by
  constructor
  · rfl
  · rfl

/-! ### C2 — the MACD line is built from misaligned EMA indices -/

/-- Claim C2, evaluation of the code at the failing input: with `fast = 1`,
`slow = 2` on the 3-bar series `d3`, the code's first MACD entry pairs the fast
EMA of bar 0 with the slow EMA of bar 1 and yields `-1`, while the same-bar
difference at bar 1 (the first bar where both EMAs exist) is `1/2`; the last
entry subtracts an out-of-range slow-EMA read and is `NaN`. -/
theorem macd_line_misalignment_eval :
    (calculateMACD d3 1 2 1).macd = [.num (-1 / 2), .num (-7 / 6), JSNum.nan]
    ∧ jsub (jidx (emaCalc 1 (d3.map (fun d => JSNum.num d.price))) 1)
        (jidx (emaCalc 2 (d3.map (fun d => JSNum.num d.price))) 0) = .num (1 / 2)
    ∧ JSNum.num (-1 / 2) ≠ JSNum.num (1 / 2) := by
  refine ⟨?_, ?_, by simp only [ne_eq, JSNum.num.injEq]; norm_num⟩
  · norm_num [calculateMACD, emaCalc, jidx, jadd, jsub, jmul, jneg, jdiv, d3,
      List.range_succ, List.scanl, List.foldl]
  · norm_num [emaCalc, jidx, jadd, jsub, jmul, jneg, jdiv, d3,
      List.scanl, List.foldl]

/-! ### C4 — position of the MACD crossing signals -/

lemma jlt_asymm (a b : JSNum) (h : jlt a b = true) : jlt b a = false := by
  cases a <;> cases b <;> simp_all [jlt] <;> linarith

/-- Claim C4, as amended: a histogram zero-crossing between bars `t` and `t+1`
emits exactly one signal, placed at index `t` — the first bar of the pair, not
the second: buy for a negative-to-positive crossing, sell for
positive-to-negative, neutral when there is no crossing. -/
theorem macd_crossing_signal_position (data : List ChartData) (f s g t : ℕ)
    (a b : JSNum)
    (ha : (calculateMACD data f s g).histogram.get? t = some a)
    (hb : (calculateMACD data f s g).histogram.get? (t + 1) = some b) :
    ((jlt a (.num 0) && jlt (.num 0) b) = true →
      (calculateMACD data f s g).signals.get? t = some "buy")
    ∧ ((jlt (.num 0) a && jlt b (.num 0)) = true →
      (calculateMACD data f s g).signals.get? t = some "sell")
    ∧ ((jlt a (.num 0) && jlt (.num 0) b) = false →
      (jlt (.num 0) a && jlt b (.num 0)) = false →
      (calculateMACD data f s g).signals.get? t = some "neutral") := by
  have hlt : t + 1 < (calculateMACD data f s g).histogram.length := by
    obtain ⟨h, -⟩ := List.get?_eq_some.mp hb
    exact h
  have hlen : t < (calculateMACD data f s g).histogram.length - 1 := by omega
  have hja : jidx (calculateMACD data f s g).histogram t = a := by
    rw [jidx, ha]
    rfl
  have hjb : jidx (calculateMACD data f s g).histogram (t + 1) = b := by
    rw [jidx, hb]
    rfl
  have hsig : (calculateMACD data f s g).signals.get? t = some (
      if jlt (jidx (calculateMACD data f s g).histogram t) (.num 0)
          && jlt (.num 0) (jidx (calculateMACD data f s g).histogram (t + 1)) then "buy"
      else if jlt (.num 0) (jidx (calculateMACD data f s g).histogram t)
          && jlt (jidx (calculateMACD data f s g).histogram (t + 1)) (.num 0) then "sell"
      else "neutral") := by
    show ((List.range ((calculateMACD data f s g).histogram.length - 1)).map _).get? t = _
    rw [List.get?_map, List.get?_range hlen]
    rfl
  rw [hja, hjb] at hsig
  refine ⟨fun hc => ?_, fun hc => ?_, fun hc1 hc2 => ?_⟩
  · rw [hsig, if_pos hc]
  · have h12 := hc
    rw [Bool.and_eq_true] at h12
    have hfa : jlt a (.num 0) = false := jlt_asymm _ _ h12.1
    rw [hsig]
    simp [hfa, hc]
  · rw [hsig]
    simp [hc1, hc2]

/-- A 4-bar close-price series whose `fast=1, slow=2, signal=2` MACD histogram
crosses from negative to positive between bars 0 and 1 of the histogram. -/
def d4 : List ChartData :=
  [⟨0, 2, none, none, none⟩, ⟨1, 4, none, none, none⟩,
    ⟨2, 1, none, none, none⟩, ⟨3, -1, none, none, none⟩]

/-- Claim C4, witness: at the concrete crossing the signal sits at the first
index of the crossing pair. -/
theorem macd_crossing_signal_position_witness :
    (calculateMACD d4 1 2 2).histogram.get? 0 = some (.num (-5 / 3))
    ∧ (calculateMACD d4 1 2 2).histogram.get? 1 = some (.num (37 / 27))
    ∧ (calculateMACD d4 1 2 2).signals.get? 0 = some "buy" := by
  have hA : (calculateMACD d4 1 2 2).histogram.get? 0 = some (.num (-5 / 3)) := by
    norm_num [calculateMACD, emaCalc, jidx, jadd, jsub, jmul, jneg, jdiv, d4,
      List.range_succ, List.scanl, List.foldl]
  have hB : (calculateMACD d4 1 2 2).histogram.get? 1 = some (.num (37 / 27)) := by
    norm_num [calculateMACD, emaCalc, jidx, jadd, jsub, jmul, jneg, jdiv, d4,
      List.range_succ, List.scanl, List.foldl]
  exact ⟨hA, hB,
    (macd_crossing_signal_position d4 1 2 2 0 _ _ hA hB).1 (by norm_num [jlt])⟩

/-- Claim C4, counterexample to the claim as stated: the histogram crosses from
negative to positive between indices 0 and 1, yet the single buy signal sits at
index 0, and the signal at the second bar of the pair is neutral, not buy. -/
theorem macd_signal_position_counterexample :
    jlt ((calculateMACD d4 1 2 2).histogram.getD 0 JSNum.nan) (.num 0) = true
    ∧ jlt (.num 0) ((calculateMACD d4 1 2 2).histogram.getD 1 JSNum.nan) = true
    ∧ (calculateMACD d4 1 2 2).signals = ["buy", "neutral", "neutral"]
    ∧ (calculateMACD d4 1 2 2).signals.getD 1 "" ≠ "buy" := by
  have hs : (calculateMACD d4 1 2 2).signals = ["buy", "neutral", "neutral"] := by
    norm_num [calculateMACD, emaCalc, jidx, jlt, jadd, jsub, jmul, jneg, jdiv, d4,
      List.range_succ, List.scanl, List.foldl]
  refine ⟨?_, ?_, hs, ?_⟩
  · norm_num [calculateMACD, emaCalc, jidx, jlt, jadd, jsub, jmul, jneg, jdiv, d4,
      List.range_succ, List.scanl, List.foldl]
  · norm_num [calculateMACD, emaCalc, jidx, jlt, jadd, jsub, jmul, jneg, jdiv, d4,
      List.range_succ, List.scanl, List.foldl]
  · rw [hs]
    decide

end CryptoBot
